import Mathlib

/-!
Verification of the drone-control layers of this repository: the Tello UDP
command wrapper and its restriction layer (RestrictedTelloSDK.py), the
command validation module (commands.py), the movement controller
(drone_controller.py) and the realtime speech bridge (hybrid_drone_agent.py).
Python functions are embedded as pure Lean functions; mutable object state is
passed explicitly; the UDP socket is abstracted as an environment mapping a
command string to its outcome; wall-clock time is an explicit rational
parameter.
-/

/-! ## Python string and integer helpers -/

/-- Characters that Python `str.split()` and `int()` treat as whitespace. -/
def isPyWhitespace (c : Char) : Bool :=
  c = ' ' || c = '\t' || c = '\n' || c = '\r' || c = '\x0b' || c = '\x0c'

/-- Python `str.split()` with no argument: split on whitespace runs and drop
empty pieces. -/
def pySplit (s : String) : List String :=
  (s.split isPyWhitespace).filter (fun x => x ≠ "")

/-- Strip leading and trailing whitespace, as Python `int()` does before
parsing. -/
def pyStrip (s : String) : String :=
  String.mk (((s.data.dropWhile isPyWhitespace).reverse.dropWhile isPyWhitespace).reverse)

/-- Digit tail of a Python integer literal: digits with single underscores
allowed between digits (PEP 515), accumulating the value. -/
def pyDigitsCore : List Char → Nat → Option Nat
  | [], acc => some acc
  | '_' :: c :: rest, acc =>
      if c.isDigit then pyDigitsCore rest (acc * 10 + (c.toNat - '0'.toNat)) else none
  | ['_'], _ => none
  | c :: rest, acc =>
      if c.isDigit then pyDigitsCore rest (acc * 10 + (c.toNat - '0'.toNat)) else none

/-- Nonempty digit string (first character must be a digit). -/
def pyDigits : List Char → Option Nat
  | [] => none
  | c :: rest => if c.isDigit then pyDigitsCore rest (c.toNat - '0'.toNat) else none

/-- Python `int(s)` on a string: strip whitespace, optional sign, digits;
`none` models `ValueError`. -/
def pyIntOfString (s : String) : Option Int :=
  match (pyStrip s).data with
  | '-' :: rest => (pyDigits rest).map (fun n => -(n : Int))
  | '+' :: rest => (pyDigits rest).map (fun n => (n : Int))
  | rest => (pyDigits rest).map (fun n => (n : Int))

/-- Python `int(q)` on a number: truncation toward zero. -/
def pyIntTrunc (q : ℚ) : ℤ :=
  if q < 0 then -(Int.floor (-q)) else Int.floor q

/-! ## TelloSDK (RestrictedTelloSDK.py)

The UDP exchange inside `TelloSDK.send_command` has three outcomes: a decoded
response string, a `socket.timeout`, or some other exception carrying a
message. -/

inductive SocketResult where
  | ok (response : String)
  | timeout
  | exc (msg : String)
deriving DecidableEq

/-- Body of `TelloSDK.send_command`: return the decoded response, or the
string "timeout" on `socket.timeout`, or "error: " plus the exception text on
any other exception; no exception escapes. -/
def telloSendCommand : SocketResult → String
  | .ok response => response
  | .timeout => "timeout"
  | .exc msg => "error: " ++ msg

/-- Body of `TelloSDK.get_battery`: `int(response)` with -1 on parse failure. -/
def telloGetBattery (r : SocketResult) : ℤ :=
  match pyIntOfString (telloSendCommand r) with
  | some n => n
  | none => -1

/-- Body of `TelloSDK.get_height`: `int(response)` with -1 on parse failure. -/
def telloGetHeight (r : SocketResult) : ℤ :=
  match pyIntOfString (telloSendCommand r) with
  | some n => n
  | none => -1

/-- Body of `TelloSDK.get_speed`: `int(response)` with -1 on parse failure. -/
def telloGetSpeed (r : SocketResult) : ℤ :=
  match pyIntOfString (telloSendCommand r) with
  | some n => n
  | none => -1

/-! ## RestrictionManager (RestrictedTelloSDK.py) -/

/-- The unused `allowed_flight_area` entry of the restrictions dictionary. -/
structure FlightArea where
  xMin : ℤ
  xMax : ℤ
  yMin : ℤ
  yMax : ℤ
  zMin : ℤ
  zMax : ℤ
deriving DecidableEq

/-- The `restrictions` dictionary of `RestrictionManager`. -/
structure Restrictions where
  maxSpeed : ℤ
  maxDistance : ℤ
  commandLimitPerSecond : ℕ
  allowedCommands : List String
  emergencyStopAllowed : Bool
  maxFlightTime : ℕ
  allowedFlightArea : FlightArea
deriving DecidableEq

/-- The defaults installed by `RestrictionManager.__init__`. -/
def defaultRestrictions : Restrictions :=
  { maxSpeed := 100
    maxDistance := 500
    commandLimitPerSecond := 10
    allowedCommands :=
      ["takeoff", "land", "forward", "back", "left", "right",
       "up", "down", "ccw", "cw", "flip", "speed", "battery?",
       "height?", "speed?", "temp?", "wifi?", "time?"]
    emergencyStopAllowed := false
    maxFlightTime := 30
    allowedFlightArea :=
      { xMin := -100, xMax := 100, yMin := -100, yMax := 100, zMin := 0, zMax := 50 } }

/-- Mutable counters of `RestrictionManager`: `command_count` and
`last_reset_time`. -/
structure RMState where
  commandCount : ℕ
  lastResetTime : ℚ
deriving DecidableEq

/-- Body of `RestrictionManager.is_command_allowed`: membership of the whole
command string in `allowed_commands`. -/
def isCommandAllowed (R : Restrictions) (command : String) : Bool :=
  decide (command ∈ R.allowedCommands)

/-- Body of `RestrictionManager.check_speed_limit`. -/
def checkSpeedLimit (R : Restrictions) (speed : ℤ) : Bool :=
  decide (speed ≤ R.maxSpeed)

/-- Body of `RestrictionManager.check_distance_limit`. -/
def checkDistanceLimit (R : Restrictions) (distance : ℤ) : Bool :=
  decide (distance ≤ R.maxDistance)

/-- Body of `RestrictionManager.check_command_rate` at current time `t`:
reset the counter when more than one second has passed since the last reset,
refuse when the counter has reached the limit, otherwise count the command. -/
def checkCommandRate (R : Restrictions) (t : ℚ) (s : RMState) : Bool × RMState :=
  let s1 := if t - s.lastResetTime > 1 then { commandCount := 0, lastResetTime := t } else s
  if s1.commandCount ≥ R.commandLimitPerSecond then (false, s1)
  else (true, { s1 with commandCount := s1.commandCount + 1 })

/-- Results of running `check_command_rate` once per call time, in order. -/
def rateResults (R : Restrictions) : List ℚ → RMState → List Bool
  | [], _ => []
  | t :: rest, s =>
      (checkCommandRate R t s).1 :: rateResults R rest (checkCommandRate R t s).2

/-- Counter state left after running `check_command_rate` once per call time. -/
def rateFinal (R : Restrictions) : List ℚ → RMState → RMState
  | [], s => s
  | t :: rest, s => rateFinal R rest (checkCommandRate R t s).2

/-! ## RestrictedTelloSDK.send_command -/

/-- The second whitespace token of the command text parsed as an integer, as
`int(command.split()[1])`; `none` covers both `IndexError` and `ValueError`,
which the source swallows with a bare `except: pass`. -/
def pySecondToken (command : String) : Option ℤ :=
  match (pySplit command).get? 1 with
  | some tok => pyIntOfString tok
  | none => none

/-- Movement verbs whose `startswith` test guards the distance check. -/
def movementPrefixes : List String :=
  ["forward", "back", "left", "right", "up", "down"]

/-- Body of `RestrictedTelloSDK.send_command`: allow-list check on the whole
command string, then rate limiting, then parameter checks keyed on
`startswith`, then delegation to `TelloSDK.send_command` via the socket
environment `env`. -/
def restrictedSendCommand (R : Restrictions) (command : String) (t : ℚ)
    (rm : RMState) (env : String → SocketResult) : String × RMState :=
  if isCommandAllowed R command = false then ("error: command not allowed", rm)
  else
    let rate := checkCommandRate R t rm
    if rate.1 = false then ("error: command rate limit exceeded", rate.2)
    else if command.startsWith "speed" then
      match pySecondToken command with
      | some speed =>
          if checkSpeedLimit R speed = false then ("error: speed exceeds maximum limit", rate.2)
          else (telloSendCommand (env command), rate.2)
      | none => (telloSendCommand (env command), rate.2)
    else if movementPrefixes.any (fun p => command.startsWith p) then
      match pySecondToken command with
      | some distance =>
          if checkDistanceLimit R distance = false then
            ("error: distance exceeds maximum limit", rate.2)
          else (telloSendCommand (env command), rate.2)
      | none => (telloSendCommand (env command), rate.2)
    else (telloSendCommand (env command), rate.2)

/-- Body of `RestrictedTelloSDK.emergency_stop`: refuse when the restriction
forbids it, otherwise send "emergency"; the second component lists the
commands actually sent over the socket. -/
def restrictedEmergencyStop (R : Restrictions) (env : String → SocketResult) :
    String × List String :=
  if R.emergencyStopAllowed = false then ("error: emergency stop not allowed", [])
  else (telloSendCommand (env "emergency"), ["emergency"])

/-! ## commands.py : DroneAction, DroneCommand validation -/

inductive DroneAction where
  | takeoff
  | land
  | move
  | rotate
  | hover
  | scan
  | emergency
deriving DecidableEq

/-- The `valid_directions` list of `DroneCommand._validate_move_command`. -/
def moveValidDirections : List String :=
  ["forward", "back", "left", "right", "up", "down"]

/-- Body of `DroneCommand._validate_move_command`: `parameters.get("direction")`
and `parameters.get("distance", 100)`; `Except.error` models `ValueError`; on
success the stored (truncated) distance is returned. -/
def droneMoveValidate (direction : Option String) (distance : Option ℚ) :
    Except String ℤ :=
  let d := distance.getD 100
  let dirOk : Bool :=
    match direction with
    | some dd => decide (dd ∈ moveValidDirections)
    | none => false
  if dirOk = false then
    Except.error ("Invalid direction: " ++
      (match direction with | some dd => dd | none => "None"))
  else if ¬ (20 ≤ d ∧ d ≤ 500) then
    Except.error "Distance must be between 20-500cm"
  else Except.ok (pyIntTrunc d)

/-- Body of `DroneCommand._validate_rotate_command`: `parameters.get("angle", 90)`
checked against -360 ≤ angle ≤ 360; on success the stored (truncated) angle is
returned. -/
def droneRotateValidate (angle : Option ℚ) : Except String ℤ :=
  let a := angle.getD 90
  if ¬ (-360 ≤ a ∧ a ≤ 360) then
    Except.error "Angle must be between -360 and 360 degrees"
  else Except.ok (pyIntTrunc a)

/-! ## commands.py : CommandValidator.validate_command_sequence

A validated `DroneCommand` as the sequence linter sees it: its action and its
`parameters.get("distance", 0)` value for MOVE commands. -/

structure SeqCmd where
  action : DroneAction
  distance : Option ℤ
deriving DecidableEq

/-- Whether an action is in the `[MOVE, ROTATE, SCAN]` list of the linter. -/
def isMovementAction : DroneAction → Bool
  | .move => true
  | .rotate => true
  | .scan => true
  | _ => false

/-- The warning text for a movement command at zero-based index `i`. -/
def takeoffWarn (i : ℕ) : String :=
  "Command " ++ toString (i + 1) ++ ": Movement command without takeoff"

/-- The warning text for a sequence whose total movement distance is `d`. -/
def distanceWarn (d : ℤ) : String :=
  "Total movement distance (" ++ toString d ++ "cm) exceeds safe limit"

/-- The warning text for a sequence not ending in a LAND command. -/
def landingWarn : String := "Command sequence should end with landing"

/-- First loop of `validate_command_sequence`: walk the list with the running
`has_takeoff` flag, warning on each MOVE/ROTATE/SCAN seen before a takeoff;
`off` is the zero-based index of the first command of the remaining list. -/
def lintTakeoffAux : List SeqCmd → ℕ → Bool → List String
  | [], _, _ => []
  | c :: rest, off, hasT =>
      if c.action = DroneAction.takeoff then lintTakeoffAux rest (off + 1) true
      else if isMovementAction c.action && !hasT then
        takeoffWarn off :: lintTakeoffAux rest (off + 1) hasT
      else lintTakeoffAux rest (off + 1) hasT

/-- Second loop of `validate_command_sequence`: total of
`parameters.get("distance", 0)` over MOVE commands. -/
def totalMoveDistance (cmds : List SeqCmd) : ℤ :=
  cmds.foldl (fun acc c => if c.action = DroneAction.move then acc + c.distance.getD 0 else acc) 0

/-- Body of `CommandValidator.validate_command_sequence`: movement-before-
takeoff warnings, then the excessive-distance warning, then the
not-ending-in-LAND warning. -/
def validateCommandSequence (cmds : List SeqCmd) : List String :=
  lintTakeoffAux cmds 0 false
    ++ ((if totalMoveDistance cmds > 1000 then [distanceWarn (totalMoveDistance cmds)] else [])
    ++ (match cmds.getLast? with
        | some c => if c.action ≠ DroneAction.land then [landingWarn] else []
        | none => []))

/-! ## simple_tello.py : SimpleTello

The drone object every `DroneController` in the source receives. Its methods
wrap the djitellopy vendor library: a vendor call either returns a value or
raises, and `SimpleTello` catches every exception. The connection flag and
the vendor outcome are explicit parameters. -/

/-- Body of `SimpleTello.get_battery`: 0 when not connected, the vendor value
on success, 0 when the vendor call raises. -/
def simpleGetBattery (isConnected : Bool) (vendor : Except String ℤ) : ℤ :=
  if isConnected = false then 0
  else
    match vendor with
    | .ok v => v
    | .error _ => 0

/-- Body of `SimpleTello.get_height`: 0 when not connected, the vendor value
on success, 0 when the vendor call raises. -/
def simpleGetHeight (isConnected : Bool) (vendor : Except String ℤ) : ℤ :=
  if isConnected = false then 0
  else
    match vendor with
    | .ok v => v
    | .error _ => 0

/-- Body of `SimpleTello.takeoff`: false when not connected, true when the
vendor takeoff returns, false when it raises. -/
def simpleTakeoff (isConnected : Bool) (vendor : Except String Unit) : Bool :=
  if isConnected = false then false
  else
    match vendor with
    | .ok _ => true
    | .error _ => false

/-! ## drone_controller.py : DroneController

The shared `DroneState` record as created by the agents (web_drone_agent.py
defaults: not flying, battery 100, height 0, no movements). The drone handle
is abstracted per call: `res` is the outcome of the wrapped vendor call
(`Except.error` models an exception caught by the `except` clause). In
`takeoff` the `self.drone.get_height()` / `self.drone.get_battery()` reads
are passed as the integer values they return, instantiated with the
`SimpleTello` getters above; in the movement wrappers, whose reads the
theorems do not reach, they stay abstracted through socket outcomes. -/

structure CtrlState where
  isFlying : Bool
  battery : ℤ
  height : ℤ
  movementCount : ℕ
deriving DecidableEq

/-- The `DroneState()` defaults of web_drone_agent.py. -/
def initCtrlState : CtrlState :=
  { isFlying := false, battery := 100, height := 0, movementCount := 0 }

/-- Body of `DroneController.takeoff`; `heightVal` / `batteryVal` are the
values the `self.drone.get_height()` / `self.drone.get_battery()` calls
return. -/
def ctrlTakeoff (visionOnly : Bool) (res : Except String Bool)
    (heightVal batteryVal : ℤ) (st : CtrlState) : String × CtrlState :=
  if st.isFlying then ("Drone is already flying!", st)
  else if visionOnly then
    ("Takeoff successful - hovering at 80cm", { st with isFlying := true, height := 80 })
  else
    match res with
    | .ok true =>
        let st1 := { st with isFlying := true, height := heightVal, battery := batteryVal }
        ("Takeoff successful - height: " ++ toString st1.height ++ "cm, battery: " ++
          toString st1.battery ++ "%", st1)
    | .ok false => ("Takeoff failed", st)
    | .error e => ("Takeoff error: " ++ e, st)

/-- Body of `DroneController.move_forward`. -/
def ctrlMoveForward (distance : ℤ) (visionOnly : Bool) (res : Except String Bool)
    (heightResp batteryResp : SocketResult) (st : CtrlState) : String × CtrlState :=
  if st.isFlying = false then ("Cannot move - drone is not flying! Use takeoff first.", st)
  else
    let st1 := { st with movementCount := st.movementCount + 1 }
    if visionOnly then
      ("Moved forward " ++ toString distance ++ "cm (Movement #" ++
        toString st1.movementCount ++ ")", st1)
    else
      match res with
      | .ok true =>
          let st2 := { st1 with height := telloGetHeight heightResp,
                                battery := telloGetBattery batteryResp }
          ("Moved forward " ++ toString distance ++ "cm - height: " ++
            toString st2.height ++ "cm, battery: " ++ toString st2.battery ++ "%", st2)
      | .ok false => ("Forward movement failed", st1)
      | .error e => ("Forward movement error: " ++ e, st1)

/-- Body of `DroneController.move_backward`. -/
def ctrlMoveBackward (distance : ℤ) (visionOnly : Bool) (res : Except String Bool)
    (st : CtrlState) : String × CtrlState :=
  if st.isFlying = false then ("Cannot move - drone is not flying! Use takeoff first.", st)
  else
    let st1 := { st with movementCount := st.movementCount + 1 }
    if visionOnly then ("Moved backward " ++ toString distance ++ "cm", st1)
    else
      match res with
      | .ok true => ("Moved backward " ++ toString distance ++ "cm", st1)
      | .ok false => ("Backward movement failed", st1)
      | .error e => ("Backward movement error: " ++ e, st1)

/-- Body of `DroneController.move_left`. -/
def ctrlMoveLeft (distance : ℤ) (visionOnly : Bool) (res : Except String Bool)
    (st : CtrlState) : String × CtrlState :=
  if st.isFlying = false then ("Cannot move - drone is not flying!", st)
  else
    let st1 := { st with movementCount := st.movementCount + 1 }
    if visionOnly then ("Moved left " ++ toString distance ++ "cm", st1)
    else
      match res with
      | .ok true => ("Moved left " ++ toString distance ++ "cm", st1)
      | .ok false => ("Left movement failed", st1)
      | .error e => ("Left movement error: " ++ e, st1)

/-- Body of `DroneController.move_right`. -/
def ctrlMoveRight (distance : ℤ) (visionOnly : Bool) (res : Except String Bool)
    (st : CtrlState) : String × CtrlState :=
  if st.isFlying = false then ("Cannot move - drone is not flying!", st)
  else
    let st1 := { st with movementCount := st.movementCount + 1 }
    if visionOnly then ("Moved right " ++ toString distance ++ "cm", st1)
    else
      match res with
      | .ok true => ("Moved right " ++ toString distance ++ "cm", st1)
      | .ok false => ("Right movement failed", st1)
      | .error e => ("Right movement error: " ++ e, st1)

/-- Body of `DroneController.move_up`. -/
def ctrlMoveUp (distance : ℤ) (visionOnly : Bool) (res : Except String Bool)
    (heightResp : SocketResult) (st : CtrlState) : String × CtrlState :=
  if st.isFlying = false then ("Cannot move - drone is not flying!", st)
  else
    let st1 := { st with movementCount := st.movementCount + 1 }
    if visionOnly then
      let st2 := { st1 with height := st1.height + distance }
      ("Moved up " ++ toString distance ++ "cm - height: " ++ toString st2.height ++ "cm", st2)
    else
      match res with
      | .ok true =>
          let st2 := { st1 with height := telloGetHeight heightResp }
          ("Moved up " ++ toString distance ++ "cm - height: " ++ toString st2.height ++ "cm", st2)
      | .ok false => ("Up movement failed", st1)
      | .error e => ("Up movement error: " ++ e, st1)

/-- Body of `DroneController.move_down`. -/
def ctrlMoveDown (distance : ℤ) (visionOnly : Bool) (res : Except String Bool)
    (heightResp : SocketResult) (st : CtrlState) : String × CtrlState :=
  if st.isFlying = false then ("Cannot move - drone is not flying!", st)
  else
    let st1 := { st with movementCount := st.movementCount + 1 }
    if visionOnly then
      let st2 := { st1 with height := max 0 (st1.height - distance) }
      ("Moved down " ++ toString distance ++ "cm - height: " ++ toString st2.height ++ "cm", st2)
    else
      match res with
      | .ok true =>
          let st2 := { st1 with height := telloGetHeight heightResp }
          ("Moved down " ++ toString distance ++ "cm - height: " ++ toString st2.height ++ "cm", st2)
      | .ok false => ("Down movement failed", st1)
      | .error e => ("Down movement error: " ++ e, st1)

/-- Body of `DroneController.rotate_clockwise` (note: no movement_count
increment in the source). -/
def ctrlRotateClockwise (angle : ℤ) (visionOnly : Bool) (res : Except String Bool)
    (st : CtrlState) : String × CtrlState :=
  if st.isFlying = false then ("Cannot rotate - drone is not flying!", st)
  else if visionOnly then ("Rotated clockwise " ++ toString angle ++ "°", st)
  else
    match res with
    | .ok true => ("Rotated clockwise " ++ toString angle ++ "°", st)
    | .ok false => ("Clockwise rotation failed", st)
    | .error e => ("Clockwise rotation error: " ++ e, st)

/-- Body of `DroneController.rotate_counter_clockwise`. -/
def ctrlRotateCounterClockwise (angle : ℤ) (visionOnly : Bool) (res : Except String Bool)
    (st : CtrlState) : String × CtrlState :=
  if st.isFlying = false then ("Cannot rotate - drone is not flying!", st)
  else if visionOnly then ("Rotated counter-clockwise " ++ toString angle ++ "°", st)
  else
    match res with
    | .ok true => ("Rotated counter-clockwise " ++ toString angle ++ "°", st)
    | .ok false => ("Counter-clockwise rotation failed", st)
    | .error e => ("Counter-clockwise rotation error: " ++ e, st)

/-! ## hybrid_drone_agent.py : SpeechManager response/queue discipline

The state visible to `speak_text` and `_process_speech_message`:
`response_active`, the FIFO `pending_speech_queue` (front of the list is the
front of the queue), plus two pieces of instrumentation derived from the
protocol: `spoken` records, in order, the texts for which `_do_speak_text`
issued a `response.create`, and `outstanding` counts `response.create`
messages issued minus `response.done` events received. The session is taken
as connected throughout. -/

structure SpeechState where
  responseActive : Bool
  pending : List String
  spoken : List String
  outstanding : ℤ
deriving DecidableEq

/-- The state after `SpeechManager.__init__`. -/
def initSpeechState : SpeechState :=
  { responseActive := false, pending := [], spoken := [], outstanding := 0 }

/-- Body of `_do_speak_text`: send the conversation item and a
`response.create` request for `text`. -/
def doSpeakText (text : String) (s : SpeechState) : SpeechState :=
  { s with spoken := s.spoken ++ [text], outstanding := s.outstanding + 1 }

/-- Events the discipline reacts to: a `speak_text` call, and the
`response.created` / `response.done` messages from the realtime API. -/
inductive SpeechEvent where
  | speak (text : String)
  | respCreated
  | respDone
deriving DecidableEq

/-- One step of the bridge: `speak_text` queues the text while a response is
active and otherwise speaks it; `response.created` sets the flag;
`response.done` clears the flag and dequeues at most one pending text. -/
def speechStep (s : SpeechState) : SpeechEvent → SpeechState
  | .speak text =>
      if s.responseActive then { s with pending := s.pending ++ [text] }
      else doSpeakText text s
  | .respCreated => { s with responseActive := true }
  | .respDone =>
      let s1 := { s with responseActive := false, outstanding := s.outstanding - 1 }
      match s1.pending with
      | [] => s1
      | h :: rest => doSpeakText h { s1 with pending := rest }

/-- Run the bridge over a sequence of events. -/
def runSpeech (events : List SpeechEvent) (s : SpeechState) : SpeechState :=
  events.foldl speechStep s

/-! ## Theorems -/

/-- C1. The allow-list test of `RestrictedTelloSDK.send_command` compares the
whole command text, not its verb, against `allowed_commands`: the in-range
command "forward 100" (and even the out-of-range "forward 600", which the
claim expects to draw the distance error) is rejected with
"error: command not allowed" from a fresh restriction state, with no command
sent and the rate counter untouched, although the verb "forward" is on the
allow-list and 100 ≤ max_distance. -/
theorem c1_allowlist_rejects_parameterized_commands (t r : ℚ) (env : String → SocketResult) :
    restrictedSendCommand defaultRestrictions "forward 100" t ⟨0, r⟩ env =
      ("error: command not allowed", ⟨0, r⟩) ∧
    restrictedSendCommand defaultRestrictions "forward 600" t ⟨0, r⟩ env =
      ("error: command not allowed", ⟨0, r⟩) ∧
    "forward" ∈ defaultRestrictions.allowedCommands ∧
    checkDistanceLimit defaultRestrictions 100 = true := by
  refine ⟨rfl, rfl, ?_, rfl⟩
  simp [defaultRestrictions]

/-- C10. With the default restrictions, where `emergency_stop_allowed` is
false, `RestrictedTelloSDK.emergency_stop` answers
"error: emergency stop not allowed" and sends nothing over the socket,
whatever the drone would reply. -/
theorem c10_emergency_stop_blocked (env : String → SocketResult) :
    restrictedEmergencyStop defaultRestrictions env =
      ("error: emergency stop not allowed", []) := by
  rfl

/-- C7. The SDK wrappers trap every failure and return sentinels: whenever
the response string of `send_command` does not parse as a Python integer,
`get_battery`, `get_height` and `get_speed` all return -1; `send_command`
itself returns "timeout" on a socket timeout and a string beginning with
"error:" on any other exception, for every outcome of the socket call. -/
theorem c7_sdk_sentinels :
    (∀ r : SocketResult, pyIntOfString (telloSendCommand r) = none →
      telloGetBattery r = -1 ∧ telloGetHeight r = -1 ∧ telloGetSpeed r = -1) ∧
    telloSendCommand SocketResult.timeout = "timeout" ∧
    (∀ msg : String, ∃ rest : String,
      telloSendCommand (SocketResult.exc msg) = "error:" ++ rest) := by
  refine ⟨?_, rfl, ?_⟩
  · intro r h
    refine ⟨?_, ?_, ?_⟩ <;> simp [telloGetBattery, telloGetHeight, telloGetSpeed, h]
  · intro msg
    exact ⟨" " ++ msg, rfl⟩

/-- C7 witness: for the concrete unparseable response "unavailable", the
three getters return -1. -/
theorem c7_sdk_sentinels_witness :
    telloGetBattery (SocketResult.ok "unavailable") = -1 ∧
    telloGetHeight (SocketResult.ok "unavailable") = -1 ∧
    telloGetSpeed (SocketResult.ok "unavailable") = -1 :=
  c7_sdk_sentinels.1 (SocketResult.ok "unavailable") (by decide)


/-- Helper: `check_command_rate` under the default restrictions, written as
an explicit case split on reset and counter. -/
theorem checkCommandRate_default_eq (t : ℚ) (k : ℕ) (r : ℚ) :
    checkCommandRate defaultRestrictions t ⟨k, r⟩ =
      if t - r > 1 then (true, ⟨1, t⟩)
      else if k ≥ 10 then (false, ⟨k, r⟩) else (true, ⟨k + 1, r⟩) := by
  by_cases h1 : t - r > 1
  · simp [checkCommandRate, defaultRestrictions, h1]
  · by_cases h2 : k ≥ 10 <;>
      simp [checkCommandRate, defaultRestrictions, h1, h2]

/-- Helper: within a one-second window the results of successive rate checks
are true exactly while the counter stays below 10. -/
theorem rateResults_window (ts : List ℚ) :
    ∀ (k : ℕ) (r : ℚ), (∀ t ∈ ts, t - r ≤ 1) →
    rateResults defaultRestrictions ts ⟨k, r⟩ =
      (List.range ts.length).map (fun i => decide (k + i < 10)) := by
  induction ts with
  | nil => intro k r _; simp [rateResults]
  | cons t rest ih =>
      intro k r h
      have ht : ¬ (t - r > 1) := not_lt.mpr (h t (List.mem_cons_self t rest))
      have hrest : ∀ u ∈ rest, u - r ≤ 1 := fun u hu => h u (List.mem_cons_of_mem t hu)
      rw [rateResults, checkCommandRate_default_eq, if_neg ht]
      rw [List.length_cons, List.range_succ_eq_map, List.map_cons, List.map_map]
      by_cases hk : k ≥ 10
      · rw [if_pos hk]
        refine congrArg₂ _ (by simp; omega) ?_
        rw [ih k r hrest]
        exact List.map_congr_left (fun i _ => decide_eq_decide.mpr (by omega))
      · rw [if_neg hk]
        refine congrArg₂ _ (by simp; omega) ?_
        rw [ih (k + 1) r hrest]
        exact List.map_congr_left (fun i _ => decide_eq_decide.mpr (by omega))

/-- Helper: within a one-second window the counter climbs by one per granted
call and saturates at 10, and the reset time never moves. -/
theorem rateFinal_window (ts : List ℚ) :
    ∀ (k : ℕ) (r : ℚ), (∀ t ∈ ts, t - r ≤ 1) →
    rateFinal defaultRestrictions ts ⟨k, r⟩ =
      ⟨if k < 10 then min (k + ts.length) 10 else k, r⟩ := by
  induction ts with
  | nil => intro k r _; simp [rateFinal]; split_ifs <;> omega
  | cons t rest ih =>
      intro k r h
      have ht : ¬ (t - r > 1) := not_lt.mpr (h t (List.mem_cons_self t rest))
      have hrest : ∀ u ∈ rest, u - r ≤ 1 := fun u hu => h u (List.mem_cons_of_mem t hu)
      rw [rateFinal, checkCommandRate_default_eq, if_neg ht]
      by_cases hk : k ≥ 10
      · rw [if_pos hk, ih k r hrest]
        refine congrArg₂ _ ?_ rfl
        split_ifs <;> omega
      · rw [if_neg hk, ih (k + 1) r hrest]
        refine congrArg₂ _ ?_ rfl
        simp only [List.length_cons]
        split_ifs <;> omega

/-- C5. Under the default restrictions, `check_command_rate` admits at most
10 commands per one-second window: starting from a reset at time `r`, a run
of calls all within one second of `r` answers true for exactly the first 10
calls and false for every later one, with the counter saturating at 10 and
the reset time unchanged; and any call made more than one second after the
last reset resets the counter and is itself admitted as the first command of
the new window. -/
theorem c5_command_rate_limit :
    (∀ (r : ℚ) (ts : List ℚ), (∀ t ∈ ts, t - r ≤ 1) →
      rateResults defaultRestrictions ts ⟨0, r⟩ =
        (List.range ts.length).map (fun i => decide (i < 10)) ∧
      rateFinal defaultRestrictions ts ⟨0, r⟩ = ⟨min ts.length 10, r⟩) ∧
    (∀ (t : ℚ) (s : RMState), t - s.lastResetTime > 1 →
      checkCommandRate defaultRestrictions t s = (true, ⟨1, t⟩)) := by
  constructor
  · intro r ts h
    constructor
    · rw [rateResults_window ts 0 r h]
      simp
    · rw [rateFinal_window ts 0 r h]
      simp
  · intro t s h
    obtain ⟨k, r⟩ := s
    rw [checkCommandRate_default_eq, if_pos h]

/-- C5 witness: from a reset at time 0, twelve calls at time 0 yield ten true
answers then false ones with the counter saturated at 10; and a call at time
2 against a stale counter of 7 resets and is admitted. -/
theorem c5_command_rate_limit_witness :
    (rateResults defaultRestrictions (List.replicate 12 (0 : ℚ)) ⟨0, 0⟩ =
        (List.range (List.replicate 12 (0 : ℚ)).length).map (fun i => decide (i < 10)) ∧
      rateFinal defaultRestrictions (List.replicate 12 (0 : ℚ)) ⟨0, 0⟩ =
        ⟨min (List.replicate 12 (0 : ℚ)).length 10, 0⟩) ∧
    checkCommandRate defaultRestrictions 2 ⟨7, 0⟩ = (true, ⟨1, 2⟩) :=
  ⟨c5_command_rate_limit.1 0 (List.replicate 12 (0 : ℚ))
      (fun t ht => by rw [List.eq_of_mem_replicate ht]; norm_num),
   c5_command_rate_limit.2 2 ⟨7, 0⟩ (by norm_num)⟩

/-- C2 counterexample. A ROTATE command with angle 0 is constructed without
error, although 0 lies outside the 1 to 360 range the claim names: the
validator in the source accepts every angle between -360 and 360. -/
theorem c2_counterexample_angle_zero :
    droneRotateValidate (some 0) = Except.ok 0 ∧ ¬ (1 ≤ (0 : ℚ)) := by
  constructor
  · rfl
  · norm_num

/-- C2 (amended). Constructing a DroneCommand with action ROTATE succeeds
exactly when the rotation angle lies between -360 and 360 degrees, and raises
ValueError for every angle outside that range. -/
theorem c2_rotate_validation_range (a : ℚ) :
    (∃ z, droneRotateValidate (some a) = Except.ok z) ↔ (-360 ≤ a ∧ a ≤ 360) := by
  unfold droneRotateValidate
  by_cases h : -360 ≤ a ∧ a ≤ 360
  · simp [h]
  · simp [h]

/-- C6. Constructing a DroneCommand with action MOVE raises ValueError
exactly when the direction is not one of forward/back/left/right/up/down or
the distance lies outside 20 to 500 cm; when it succeeds, the stored distance
is int(distance), the distance truncated toward zero. -/
theorem c6_move_validation (dir : String) (d : ℚ) :
    ((∃ z, droneMoveValidate (some dir) (some d) = Except.ok z) ↔
      (dir ∈ moveValidDirections ∧ 20 ≤ d ∧ d ≤ 500)) ∧
    (∀ z, droneMoveValidate (some dir) (some d) = Except.ok z → z = pyIntTrunc d) := by
  constructor
  · unfold droneMoveValidate
    by_cases h1 : dir ∈ moveValidDirections
    · by_cases h2 : 20 ≤ d ∧ d ≤ 500
      · simp [h1, h2]
      · simp [h1, h2]
    · simp [h1]
  · intro z hz
    unfold droneMoveValidate at hz
    by_cases h1 : dir ∈ moveValidDirections
    · by_cases h2 : 20 ≤ d ∧ d ≤ 500
      · simp [h1, h2] at hz
        exact hz.symm
      · simp [h1, h2] at hz
    · simp [h1] at hz

/-- C6 witness: direction "forward" with distance 100 is accepted and stores
100, and the acceptance criterion holds at this input. -/
theorem c6_move_validation_witness :
    ("forward" ∈ moveValidDirections ∧ 20 ≤ (100 : ℚ) ∧ (100 : ℚ) ≤ 500) ∧
    (100 : ℤ) = pyIntTrunc 100 := by
  refine ⟨⟨by decide, by norm_num, by norm_num⟩, ?_⟩
  refine (c6_move_validation "forward" 100).2 100 ?_
  have h100 : pyIntTrunc 100 = 100 := by norm_num [pyIntTrunc]
  have hdir : "forward" ∈ moveValidDirections := by decide
  have hd : 20 ≤ (100 : ℚ) ∧ (100 : ℚ) ≤ 500 := by norm_num
  simp [droneMoveValidate, h100, hdir, hd]

/-- Helper: the SimpleTello getters answer 0 on every failed query, whether
the drone is disconnected or the vendor call raised. -/
theorem simpleGet_zero_on_failure (conn : Bool) (v : Except String ℤ)
    (h : conn = false ∨ ∃ e, v = Except.error e) :
    simpleGetBattery conn v = 0 ∧ simpleGetHeight conn v = 0 := by
  rcases h with h | ⟨e, rfl⟩
  · simp [simpleGetBattery, simpleGetHeight, h]
  · cases conn <;> simp [simpleGetBattery, simpleGetHeight]

/-- C8 counterexample. At the execution the claim exhibits — a real-mode
`DroneController.takeoff` whose vendor takeoff succeeds while the battery and
height queries fail — the stored battery is 0, not the negative value -1: the
`DroneController` objects of the source are wired to `SimpleTello`, whose
getters return 0 on failure, so the -1 sentinel of `TelloSDK` never reaches
`DroneState`. -/
theorem c8_counterexample_failed_query_stores_zero :
    (ctrlTakeoff false (Except.ok (simpleTakeoff true (Except.ok ())))
        (simpleGetHeight true (Except.error "Aborting command"))
        (simpleGetBattery true (Except.error "Aborting command"))
        initCtrlState).2.battery = 0 ∧
    (ctrlTakeoff false (Except.ok (simpleTakeoff true (Except.ok ())))
        (simpleGetHeight true (Except.error "Aborting command"))
        (simpleGetBattery true (Except.error "Aborting command"))
        initCtrlState).2.battery ≠ -1 ∧
    (ctrlTakeoff false (Except.ok (simpleTakeoff true (Except.ok ())))
        (simpleGetHeight true (Except.error "Aborting command"))
        (simpleGetBattery true (Except.error "Aborting command"))
        initCtrlState).2.height = 0 := by
  refine ⟨rfl, by decide, rfl⟩

/-- C8 (amended). No check enforces the non-negativity of battery or height,
but the exhibited failure path cannot assign -1: a grounded real-mode takeoff
stores exactly the values the drone getters return, and with the SimpleTello
drone of the source, whenever the battery and height queries fail
(disconnected drone or vendor exception) a takeoff from a state with
non-negative battery and height leaves both fields non-negative, the failed
queries having stored 0. -/
theorem c8_failed_queries_store_zero :
    (∀ (st : CtrlState) (hv bv : ℤ), st.isFlying = false →
      ctrlTakeoff false (Except.ok true) hv bv st =
        ("Takeoff successful - height: " ++ toString hv ++ "cm, battery: " ++
          toString bv ++ "%",
         { st with isFlying := true, height := hv, battery := bv })) ∧
    (∀ (conn : Bool) (vb vh : Except String ℤ) (tv : Except String Unit)
        (st : CtrlState), 0 ≤ st.battery → 0 ≤ st.height →
      (conn = false ∨ ∃ e, vb = Except.error e) →
      (conn = false ∨ ∃ e, vh = Except.error e) →
      0 ≤ (ctrlTakeoff false (Except.ok (simpleTakeoff conn tv))
            (simpleGetHeight conn vh) (simpleGetBattery conn vb) st).2.battery ∧
      0 ≤ (ctrlTakeoff false (Except.ok (simpleTakeoff conn tv))
            (simpleGetHeight conn vh) (simpleGetBattery conn vb) st).2.height) := by
  constructor
  · intro st hv bv h
    simp [ctrlTakeoff, h]
  · intro conn vb vh tv st hbat hhei hfb hfh
    have hb : simpleGetBattery conn vb = 0 := (simpleGet_zero_on_failure conn vb hfb).1
    have hh : simpleGetHeight conn vh = 0 := (simpleGet_zero_on_failure conn vh hfh).2
    rw [hb, hh]
    by_cases hf : st.isFlying
    · simp [ctrlTakeoff, hf]
      exact ⟨hbat, hhei⟩
    · cases htv : simpleTakeoff conn tv
      · simp [ctrlTakeoff, hf]
        exact ⟨hbat, hhei⟩
      · simp [ctrlTakeoff, hf]

/-- C8 witness: a grounded takeoff with both getter values 0 stores 0 into
battery and height; and at the concrete failing queries (connected drone,
vendor exception) from the default state, battery and height come out
non-negative. -/
theorem c8_failed_queries_store_zero_witness :
    ctrlTakeoff false (Except.ok true) 0 0 initCtrlState =
      ("Takeoff successful - height: " ++ toString (0 : ℤ) ++ "cm, battery: " ++
        toString (0 : ℤ) ++ "%",
       { initCtrlState with isFlying := true, height := 0, battery := 0 }) ∧
    (0 ≤ (ctrlTakeoff false (Except.ok (simpleTakeoff true (Except.error "x")))
          (simpleGetHeight true (Except.error "x"))
          (simpleGetBattery true (Except.error "x")) initCtrlState).2.battery ∧
     0 ≤ (ctrlTakeoff false (Except.ok (simpleTakeoff true (Except.error "x")))
          (simpleGetHeight true (Except.error "x"))
          (simpleGetBattery true (Except.error "x")) initCtrlState).2.height) :=
  ⟨c8_failed_queries_store_zero.1 initCtrlState 0 0 rfl,
   c8_failed_queries_store_zero.2 true (Except.error "x") (Except.error "x")
     (Except.error "x") initCtrlState (by norm_num [initCtrlState])
     (by norm_num [initCtrlState]) (Or.inr ⟨"x", rfl⟩) (Or.inr ⟨"x", rfl⟩)⟩

/-- C9 counterexample. A `move_left` call on a grounded drone answers
"Cannot move - drone is not flying!" and not, as the claim states for every
movement operation, "Cannot move - drone is not flying! Use takeoff first.". -/
theorem c9_counterexample_move_left_message :
    (ctrlMoveLeft 50 false (Except.ok true) initCtrlState).1 =
      "Cannot move - drone is not flying!" ∧
    (ctrlMoveLeft 50 false (Except.ok true) initCtrlState).1 ≠
      "Cannot move - drone is not flying! Use takeoff first." := by
  constructor
  · rfl
  · decide

/-- C9 (amended). When `drone_state.is_flying` is false every movement
operation of `DroneController` refuses and leaves the state (in particular
`movement_count`) untouched; the refusal message is
"Cannot move - drone is not flying! Use takeoff first." for move_forward and
move_backward, "Cannot move - drone is not flying!" for
move_left/move_right/move_up/move_down, and
"Cannot rotate - drone is not flying!" for the rotations. -/
theorem c9_grounded_moves_leave_state (d a : ℤ) (vo : Bool)
    (res : Except String Bool) (hR bR : SocketResult) (st : CtrlState)
    (h : st.isFlying = false) :
    ctrlMoveForward d vo res hR bR st =
      ("Cannot move - drone is not flying! Use takeoff first.", st) ∧
    ctrlMoveBackward d vo res st =
      ("Cannot move - drone is not flying! Use takeoff first.", st) ∧
    ctrlMoveLeft d vo res st = ("Cannot move - drone is not flying!", st) ∧
    ctrlMoveRight d vo res st = ("Cannot move - drone is not flying!", st) ∧
    ctrlMoveUp d vo res hR st = ("Cannot move - drone is not flying!", st) ∧
    ctrlMoveDown d vo res hR st = ("Cannot move - drone is not flying!", st) ∧
    ctrlRotateClockwise a vo res st = ("Cannot rotate - drone is not flying!", st) ∧
    ctrlRotateCounterClockwise a vo res st =
      ("Cannot rotate - drone is not flying!", st) := by
  refine ⟨?_, ?_, ?_, ?_, ?_, ?_, ?_, ?_⟩ <;>
    simp [ctrlMoveForward, ctrlMoveBackward, ctrlMoveLeft, ctrlMoveRight,
      ctrlMoveUp, ctrlMoveDown, ctrlRotateClockwise, ctrlRotateCounterClockwise, h]

/-- C9 witness: at the freshly created (grounded) state, the eight grounded
movement operations answer their refusal messages and leave the state
unchanged. -/
theorem c9_grounded_moves_leave_state_witness :
    ctrlMoveForward 30 false (Except.ok true) SocketResult.timeout SocketResult.timeout
        initCtrlState =
      ("Cannot move - drone is not flying! Use takeoff first.", initCtrlState) ∧
    ctrlMoveBackward 30 false (Except.ok true) initCtrlState =
      ("Cannot move - drone is not flying! Use takeoff first.", initCtrlState) ∧
    ctrlMoveLeft 30 false (Except.ok true) initCtrlState =
      ("Cannot move - drone is not flying!", initCtrlState) ∧
    ctrlMoveRight 30 false (Except.ok true) initCtrlState =
      ("Cannot move - drone is not flying!", initCtrlState) ∧
    ctrlMoveUp 30 false (Except.ok true) SocketResult.timeout initCtrlState =
      ("Cannot move - drone is not flying!", initCtrlState) ∧
    ctrlMoveDown 30 false (Except.ok true) SocketResult.timeout initCtrlState =
      ("Cannot move - drone is not flying!", initCtrlState) ∧
    ctrlRotateClockwise 90 false (Except.ok true) initCtrlState =
      ("Cannot rotate - drone is not flying!", initCtrlState) ∧
    ctrlRotateCounterClockwise 90 false (Except.ok true) initCtrlState =
      ("Cannot rotate - drone is not flying!", initCtrlState) :=
  c9_grounded_moves_leave_state 30 90 false (Except.ok true)
    SocketResult.timeout SocketResult.timeout initCtrlState rfl

/-- C4 counterexample. Two `speak_text` calls that both arrive before the
`response.created` event of the first each issue a `response.create`: after
the trace [speak "a", speak "b"] from the initial state, two generations are
outstanding, both texts were spoken immediately and nothing was queued, so
the bridge does have two outstanding response generations. -/
theorem c4_counterexample_two_outstanding :
    runSpeech [SpeechEvent.speak "a", SpeechEvent.speak "b"] initSpeechState =
      { responseActive := false, pending := [], spoken := ["a", "b"],
        outstanding := 2 } := by
  decide

/-- C4 (amended). The queue discipline the code does maintain: while
`response_active` is true a `speak_text` call appends its text to the back of
`pending_speech_queue` and issues nothing; a `response.done` with an empty
queue clears the flag and speaks nothing; a `response.done` with a non-empty
queue clears the flag, dequeues exactly the front element and speaks it, so
queued requests leave in FIFO order, one per completion. Only one request is
in flight at a time once `response.created` has been observed before any
further `speak_text`; two `speak_text` calls racing ahead of the first
`response.created` can still issue two generations (the counterexample). -/
theorem c4_speech_queue_discipline :
    (∀ (s : SpeechState) (text : String), s.responseActive = true →
      speechStep s (SpeechEvent.speak text) = { s with pending := s.pending ++ [text] }) ∧
    (∀ s : SpeechState, s.pending = [] →
      speechStep s SpeechEvent.respDone =
        { s with responseActive := false, outstanding := s.outstanding - 1 }) ∧
    (∀ (s : SpeechState) (h : String) (rest : List String), s.pending = h :: rest →
      speechStep s SpeechEvent.respDone =
        { responseActive := false, pending := rest, spoken := s.spoken ++ [h],
          outstanding := s.outstanding - 1 + 1 }) := by
  refine ⟨?_, ?_, ?_⟩
  · intro s text hact
    simp [speechStep, hact]
  · intro s hp
    simp [speechStep, hp]
  · intro s h rest hp
    simp [speechStep, hp, doSpeakText]

/-- C4 witness: with a response active, speaking "c" queues it behind "b";
a completion with empty queue only clears the flag; a completion with queue
["b", "c"] speaks exactly "b" and leaves ["c"] queued. -/
theorem c4_speech_queue_discipline_witness :
    speechStep ⟨true, ["b"], ["a"], 1⟩ (SpeechEvent.speak "c") =
      ⟨true, ["b", "c"], ["a"], 1⟩ ∧
    speechStep ⟨true, [], ["a"], 1⟩ SpeechEvent.respDone = ⟨false, [], ["a"], 0⟩ ∧
    speechStep ⟨true, ["b", "c"], ["a"], 1⟩ SpeechEvent.respDone =
      ⟨false, ["c"], ["a", "b"], 1⟩ :=
  ⟨c4_speech_queue_discipline.1 ⟨true, ["b"], ["a"], 1⟩ "c" rfl,
   c4_speech_queue_discipline.2.1 ⟨true, [], ["a"], 1⟩ rfl,
   c4_speech_queue_discipline.2.2 ⟨true, ["b", "c"], ["a"], 1⟩ "b" ["c"] rfl⟩

/-- Helper: MOVE, ROTATE and SCAN are not TAKEOFF. -/
theorem isMovementAction_ne_takeoff {a : DroneAction} (h : isMovementAction a = true) :
    a ≠ DroneAction.takeoff := by
  cases a <;> simp_all [isMovementAction]

/-- Helper: the takeoff linter loop emits the warning for index `off + i`
whenever the command at relative index `i` is a movement command and no
takeoff precedes it, starting with the flag down. -/
theorem lintTakeoffAux_mem :
    ∀ (cmds : List SeqCmd) (off i : ℕ) (h : i < cmds.length),
      isMovementAction (cmds.get ⟨i, h⟩).action = true →
      (∀ j (hj : j < i), (cmds.get ⟨j, lt_trans hj h⟩).action ≠ DroneAction.takeoff) →
      takeoffWarn (off + i) ∈ lintTakeoffAux cmds off false := by
  intro cmds
  induction cmds with
  | nil => intro off i h; exact absurd h (Nat.not_lt_zero i)
  | cons c rest ih =>
      intro off i h hm hnt
      cases i with
      | zero =>
          have hc : isMovementAction c.action = true := hm
          have hct : c.action ≠ DroneAction.takeoff := isMovementAction_ne_takeoff hc
          simp only [lintTakeoffAux, if_neg hct, hc, Bool.not_false, Bool.and_true,
            if_pos, Nat.add_zero]
          exact List.mem_cons_self _ _
      | succ j =>
          have hct : c.action ≠ DroneAction.takeoff := hnt 0 (Nat.succ_pos j)
          have hj : j < rest.length := Nat.lt_of_succ_lt_succ h
          have hm2 : isMovementAction (rest.get ⟨j, hj⟩).action = true := hm
          have hnt2 : ∀ j2 (hj2 : j2 < j),
              (rest.get ⟨j2, lt_trans hj2 hj⟩).action ≠ DroneAction.takeoff :=
            fun j2 hj2 => hnt (j2 + 1) (Nat.succ_lt_succ hj2)
          have hrec := ih (off + 1) j hj hm2 hnt2
          have heq : off + (j + 1) = off + 1 + j := by omega
          rw [heq]
          simp only [lintTakeoffAux, if_neg hct]
          by_cases hmv : isMovementAction c.action = true
          · simp only [hmv, Bool.not_false, Bool.and_true, if_pos]
            exact List.mem_cons_of_mem _ hrec
          · simp only [Bool.not_false, Bool.and_true, hmv, if_neg]
            simp only [Bool.not_eq_true] at hmv
            simp [hmv]
            exact hrec

/-- C3. The sequence linter flags, with a warning ending in
"without takeoff", every MOVE, ROTATE or SCAN command occurring before any
TAKEOFF; whenever the sequence is non-empty and its last command is not LAND
it emits the not-ending-in-landing warning; and the sequence
[TAKEOFF, valid MOVE, LAND] produces no warning at all. -/
theorem c3_sequence_linter :
    (∀ (cmds : List SeqCmd) (i : ℕ) (h : i < cmds.length),
      isMovementAction (cmds.get ⟨i, h⟩).action = true →
      (∀ j (hj : j < i), (cmds.get ⟨j, lt_trans hj h⟩).action ≠ DroneAction.takeoff) →
      takeoffWarn i ∈ validateCommandSequence cmds ∧
        ∃ p, takeoffWarn i = p ++ "without takeoff") ∧
    (∀ (cmds : List SeqCmd) (c : SeqCmd), cmds.getLast? = some c →
      c.action ≠ DroneAction.land → landingWarn ∈ validateCommandSequence cmds) ∧
    validateCommandSequence
      [⟨DroneAction.takeoff, none⟩, ⟨DroneAction.move, some 100⟩,
       ⟨DroneAction.land, none⟩] = [] := by
  refine ⟨?_, ?_, ?_⟩
  · intro cmds i h hm hnt
    constructor
    · have := lintTakeoffAux_mem cmds 0 i h hm hnt
      rw [Nat.zero_add] at this
      exact List.mem_append.mpr (Or.inl this)
    · refine ⟨"Command " ++ toString (i + 1) ++ ": Movement command ", ?_⟩
      have hlit : ": Movement command without takeoff" =
          ": Movement command " ++ "without takeoff" := rfl
      show "Command " ++ toString (i + 1) ++ ": Movement command without takeoff" =
        "Command " ++ toString (i + 1) ++ ": Movement command " ++ "without takeoff"
      rw [hlit, ← String.append_assoc]
  · intro cmds c hlast hc
    refine List.mem_append.mpr (Or.inr (List.mem_append.mpr (Or.inr ?_)))
    rw [hlast]
    show landingWarn ∈ (if c.action ≠ DroneAction.land then [landingWarn] else [])
    rw [if_pos hc]
    exact List.mem_singleton.mpr rfl
  · rfl

/-- C3 witness: in the sequence [MOVE 100, LAND] the move at index 0 is
flagged with a warning ending in "without takeoff", and the sequence
[TAKEOFF, MOVE 100], which does not end with LAND, draws the landing
warning. -/
theorem c3_sequence_linter_witness :
    (takeoffWarn 0 ∈ validateCommandSequence
        [⟨DroneAction.move, some 100⟩, ⟨DroneAction.land, none⟩] ∧
      ∃ p, takeoffWarn 0 = p ++ "without takeoff") ∧
    landingWarn ∈ validateCommandSequence
      [⟨DroneAction.takeoff, none⟩, ⟨DroneAction.move, some 100⟩] :=
  ⟨c3_sequence_linter.1 [⟨DroneAction.move, some 100⟩, ⟨DroneAction.land, none⟩] 0
      (by decide) rfl (fun j hj => absurd hj (Nat.not_lt_zero j)),
   c3_sequence_linter.2.1 [⟨DroneAction.takeoff, none⟩, ⟨DroneAction.move, some 100⟩]
      ⟨DroneAction.move, some 100⟩ rfl (by decide)⟩
